import Mathlib

/-!
Verification development for `circular_vector` (src/circular_vector.hpp).

The container keeps, over a backing store of `capacity` slots, two physical
runs of live elements: `first_span_` (the Front Run, right edge pinned to the
store's end, growing leftward) and `second_span_` (the Back Run, left edge
pinned to the store's start, growing rightward).  We embed a container state
by its capacity, the offset of each span's data pointer from the store's
base, and the list of elements each span holds (the span's size is the list's
length).  Pointer values inside the store are represented as `Nat` offsets
from the storage base.

Operations whose C++ behavior is undefined (reading or shrinking an empty
span) are embedded as `Option`-returning functions, `none` on the undefined
case.  Syntactic slips in the source with a single evident reading (the
undeclared locals `first_span_size` / `second_span_size` and the missing
underscore in `first_span.begin()` / `second_span = ...` within the range
constructor and `push_back`) are embedded under that reading; semantically
meaningful expressions, such as the assignment `current_ = second_span_begin_`
used as the boundary test in `operator--`, are embedded exactly as written.
-/

/-- State of a `circular_vector<T>`: storage capacity (`storage_.size()`),
the data-pointer offset and contents of `first_span_` (Front Run) and of
`second_span_` (Back Run).  The physical slots of the front run are
`[first_off, first_off + first_elems.length)` and those of the back run are
`[second_off, second_off + second_elems.length)`. -/
structure circular_vector (α : Type) where
  capacity : Nat
  first_off : Nat
  first_elems : List α
  second_off : Nat
  second_elems : List α
deriving DecidableEq

namespace circular_vector

variable {α : Type}

/-- `circular_vector(std::size_t capacity)` (line 16): the front span starts
at `storage_.end()` with size 0, the back span at `storage_.data()` with
size 0. -/
def ofCapacity (cap : Nat) : circular_vector α :=
  ⟨cap, cap, [], 0, []⟩

/-- `size()` (line 61): `first_span_.size() + second_span_.size()`. -/
def size (s : circular_vector α) : Nat :=
  s.first_elems.length + s.second_elems.length

/-- The logical sequence: Front Run start to end, then Back Run start to
end. -/
def logical (s : circular_vector α) : List α :=
  s.first_elems ++ s.second_elems

/-- `circular_vector(capacity, first, last)` (lines 20-33): delegates to
`circular_vector(capacity)`, then sets `first_span_size = (size + 1) / 2`,
`second_span_size = size / 2`, rebinds `first_span_` to
`{first_span_.data() - first_span_size, first_span_size}` (so its offset is
`capacity - first_span_size`) and `second_span_` to
`{second_span_.data(), second_span_size}` (offset 0), and copies the first
`first_span_size` range elements into the front span and the rest into the
back span. -/
def ofRange (cap : Nat) (xs : List α) : circular_vector α :=
  let fsize := (xs.length + 1) / 2
  ⟨cap, cap - fsize, xs.take fsize, 0, xs.drop fsize⟩

/-- `reserve(new_capacity)` (lines 66-73): when `new_capacity > capacity()`,
build `circular_vector new_self(new_capacity, begin(), end())` and swap it
into place; otherwise do nothing.  The source's iterator-pair copy is
ill-formed as written (the nested `iterator` class offers none of the
random-access operations the range constructor requires; spec section 9
flags the iterator as defective), so the copied range is embedded as the
container's logical sequence, per the growth protocol of spec sections
4.3-4.4. -/
def reserve (nc : Nat) (s : circular_vector α) : circular_vector α :=
  if s.capacity < nc then ofRange nc (logical s) else s

/-- `push_front(value)` (lines 194-203): `reserve(size() + 1)`, rebind the
front span to `{first_span_.data() - 1, first_span_.size() + 1}`, construct
`value` in the freed slot. -/
def push_front (v : α) (s : circular_vector α) : circular_vector α :=
  let t := reserve (size s + 1) s
  { t with first_off := t.first_off - 1, first_elems := v :: t.first_elems }

/-- `pop_front()` (lines 205-212): destroy `first_span_.front()` and rebind
the front span to `first_span_.last(first_span_.size() - 1)`.  When the
front span is empty both steps are undefined behavior (`front()` on an empty
span; `last` with count `size_t(-1)`), embedded as `none`. -/
def pop_front (s : circular_vector α) : Option (circular_vector α) :=
  match s.first_elems with
  | [] => none
  | _ :: rest => some { s with first_off := s.first_off + 1, first_elems := rest }

/-- `push_back(value)` (lines 214-223): `reserve(size() + 1)`, rebind the
back span to `{second_span_.data(), second_span_.size() + 1}`, construct
`value` in the new last slot. -/
def push_back (v : α) (s : circular_vector α) : circular_vector α :=
  let t := reserve (size s + 1) s
  { t with second_elems := t.second_elems ++ [v] }

/-- `pop_back()` (lines 225-232): destroy `second_span_.back()` and rebind
the back span to `second_span_.first(second_span_.size() - 1)`.  When the
back span is empty both steps are undefined behavior, embedded as `none`. -/
def pop_back (s : circular_vector α) : Option (circular_vector α) :=
  match s.second_elems with
  | [] => none
  | _ :: _ => some { s with second_elems := s.second_elems.dropLast }

/-- `front()` (lines 41-49): `first_span_.front()`.  Undefined behavior (a
read of an empty span) when the front span is empty, embedded as `none`. -/
def front (s : circular_vector α) : Option α :=
  s.first_elems.head?

/-- `back()` (lines 51-59): `second_span_.back()`.  Undefined behavior when
the back span is empty, embedded as `none`. -/
def back (s : circular_vector α) : Option α :=
  s.second_elems.getLast?

/-- `circular_vector(circular_vector&&) = default` (line 39): member-wise
move.  Moving `storage_` (a `std::vector`) leaves the source's vector empty,
so the source's `capacity()` becomes 0; the two `std::span` members are
trivially copyable, so the source keeps its span offsets and sizes (its span
data now dangles into the transferred buffer — element reads through the
source are not modelled, but `size()` reads only the span sizes).  Returns
(destination, source after the move). -/
def move_construct (s : circular_vector α) : circular_vector α × circular_vector α :=
  (⟨s.capacity, s.first_off, s.first_elems, s.second_off, s.second_elems⟩,
   ⟨0, s.first_off, s.first_elems, s.second_off, s.second_elems⟩)

/-- The nested `iterator` class (lines 99-172): current slot position, Front
Run end boundary (`first_span_end_`), Back Run start boundary
(`second_span_begin_`), all as offsets from the storage base. -/
structure iterator where
  current : Nat
  first_span_end : Nat
  second_span_begin : Nat
deriving DecidableEq

/-- `begin()` (lines 174-182): iterator at `first_span().begin()`, with
boundaries `first_span().end()` and `second_span().begin()`. -/
def cvBegin (s : circular_vector α) : iterator :=
  ⟨s.first_off, s.first_off + s.first_elems.length, s.second_off⟩

/-- `end()` (lines 184-192): iterator at `second_span().end()`, with the
same two boundaries as `begin()`. -/
def cvEnd (s : circular_vector α) : iterator :=
  ⟨s.second_off + s.second_elems.length, s.first_off + s.first_elems.length, s.second_off⟩

/-- `operator++` (lines 143-166): `current_++`; if the result equals
`first_span_end_`, jump to `second_span_begin_`. -/
def iterator.inc (it : iterator) : iterator :=
  let c := it.current + 1
  { it with current := if c = it.first_span_end then it.second_span_begin else c }

/-- `operator--` (lines 114-140): the body runs
`if(current_ = second_span_begin_) { current_ = first_span_end_; } --current_;`.
The condition is an assignment, not a comparison: it sets `current_` to
`second_span_begin_` and then tests the truth value of that pointer, i.e.
whether the storage base is non-null; `storage_nonnull` carries that test's
outcome.  (The pre-decrement's declared return type at line 115 is
malformed; the post-decrement at lines 128-140 is well-formed and this is
its exact body.) -/
def iterator.dec (storage_nonnull : Bool) (it : iterator) : iterator :=
  let c1 := it.second_span_begin
  let c2 := if storage_nonnull then it.first_span_end else c1
  { it with current := c2 - 1 }

/-- The element stored in physical slot `p`, reading whichever span covers
that slot (`none` for a slot outside both spans, which is unconstructed
memory). -/
def getSlot (s : circular_vector α) (p : Nat) : Option α :=
  if s.first_off ≤ p ∧ p < s.first_off + s.first_elems.length then
    s.first_elems[p - s.first_off]?
  else if s.second_off ≤ p ∧ p < s.second_off + s.second_elems.length then
    s.second_elems[p - s.second_off]?
  else none

/-- Forward iteration: starting from `it`, repeat at most `fuel` times:
stop if the position equals `end()`'s position, otherwise visit the current
slot and apply `operator++`. -/
def fwd_collect (s : circular_vector α) : Nat → iterator → List α
  | 0, _ => []
  | n + 1, it =>
    if it.current = (cvEnd s).current then []
    else (getSlot s it.current).toList ++ fwd_collect s n it.inc

/-- Backward iteration: repeat `n` times: apply `operator--` (with the given
storage non-null flag) and visit the slot reached. -/
def bwd_collect (s : circular_vector α) (nn : Bool) : Nat → iterator → List α
  | 0, _ => []
  | n + 1, it =>
    let it2 := it.dec nn
    (getSlot s it2.current).toList ++ bwd_collect s nn n it2

/-- One operation of the public mutator interface. -/
inductive Op where
  | pushF : Nat → Op
  | pushB : Nat → Op
  | popF : Op
  | popB : Op
deriving DecidableEq

/-- Execute one mutator on a container state. -/
def step (s : circular_vector Nat) : Op → Option (circular_vector Nat)
  | .pushF v => some (push_front v s)
  | .pushB v => some (push_back v s)
  | .popF => pop_front s
  | .popB => pop_back s

/-- Execute a sequence of mutators, `none` as soon as one hits undefined
behavior. -/
def runOps (s : circular_vector Nat) : List Op → Option (circular_vector Nat)
  | [] => some s
  | op :: rest => (step s op).bind (fun t => runOps t rest)

/-- One operation of the reference double-ended queue. -/
def dequeStep (l : List Nat) : Op → Option (List Nat)
  | .pushF v => some (v :: l)
  | .pushB v => some (l ++ [v])
  | .popF => match l with
             | [] => none
             | _ :: t => some t
  | .popB => match l with
             | [] => none
             | _ :: _ => some l.dropLast

/-- Execute a sequence of operations on the reference double-ended queue;
`none` only when a pop hits an empty queue. -/
def dequeRun (l : List Nat) : List Op → Option (List Nat)
  | [] => some l
  | op :: rest => (dequeStep l op).bind (fun t => dequeRun t rest)

/-- The range constructor with a fallible element copy (modelling a throwing
copy constructor inside `std::uninitialized_copy_n` / `uninitialized_copy` at
lines 31-32): elements are copied one at a time, first the front-span range,
then the back-span range, stopping at the first failure. -/
def ofRangeTry {ε : Type} (copy : α → Except ε α) (cap : Nat) (xs : List α) :
    Except ε (circular_vector α) :=
  let fsize := (xs.length + 1) / 2
  do
    let f ← (xs.take fsize).mapM copy
    let b ← (xs.drop fsize).mapM copy
    pure ⟨cap, cap - fsize, f, 0, b⟩

/-- `reserve` with a fallible element copy, mirroring the source's control
flow at lines 66-73: the new container `new_self` is fully constructed
first, and only then swapped into place; if construction fails, the failure
propagates before the swap, so the caller's container is the untouched
original.  Returns (outcome, container state after the call). -/
def reserveTry {ε : Type} (copy : α → Except ε α) (nc : Nat) (s : circular_vector α) :
    Except ε Unit × circular_vector α :=
  if s.capacity < nc then
    match ofRangeTry copy nc (logical s) with
    | .ok t => (.ok (), t)
    | .error e => (.error e, s)
  else (.ok (), s)

/-- States reachable through the public operations: the capacity
constructor, the range constructor (with enough capacity for the range),
the four mutators (pops only where defined, i.e. where the C++ is free of
undefined behavior), and `reserve`. -/
inductive Reach : circular_vector Nat → Prop where
  | ofCap (c : Nat) : Reach (ofCapacity c)
  | ofRange (c : Nat) (xs : List Nat) : xs.length ≤ c → Reach (circular_vector.ofRange c xs)
  | pushF {s : circular_vector Nat} (v : Nat) : Reach s → Reach (push_front v s)
  | pushB {s : circular_vector Nat} (v : Nat) : Reach s → Reach (push_back v s)
  | popF {s s' : circular_vector Nat} : Reach s → pop_front s = some s' → Reach s'
  | popB {s s' : circular_vector Nat} : Reach s → pop_back s = some s' → Reach s'
  | resv {s : circular_vector Nat} (nc : Nat) : Reach s → Reach (reserve nc s)

/-- The data-model invariants of spec section 3: the Front Run's right edge
is pinned to the store's end, the Back Run's left edge to the store's start,
the runs do not overlap, and the live elements fit in the store. -/
def SpanInv (s : circular_vector α) : Prop :=
  s.first_off + s.first_elems.length = s.capacity ∧
  s.second_off = 0 ∧
  s.second_off + s.second_elems.length ≤ s.first_off ∧
  size s ≤ s.capacity

/-- Building a container by consecutive `push_back` calls starting from the
default (capacity 0) container. -/
def pushBackAll (xs : List α) : circular_vector α :=
  xs.foldl (fun s v => push_back v s) (ofCapacity 0)

lemma length_logical (s : circular_vector α) : (logical s).length = size s := by
  simp [logical, size]

lemma inv_ofCapacity (cap : Nat) : SpanInv (ofCapacity (α := α) cap) := by
  simp [SpanInv, ofCapacity, size]

lemma inv_ofRange {cap : Nat} {xs : List α} (h : xs.length ≤ cap) :
    SpanInv (ofRange cap xs) := by
  refine ⟨?_, rfl, ?_, ?_⟩ <;>
    simp only [ofRange, size, List.length_take, List.length_drop] <;>
    omega

lemma capacity_reserve_ge (nc : Nat) (s : circular_vector α) :
    nc ≤ (reserve nc s).capacity := by
  unfold reserve
  split
  · simp [ofRange]
  · omega

lemma size_reserve (nc : Nat) (s : circular_vector α) : size (reserve nc s) = size s := by
  unfold reserve
  split
  · simp only [size, ofRange, List.length_take, List.length_drop, logical, List.length_append]
    omega
  · rfl

lemma logical_reserve (nc : Nat) (s : circular_vector α) :
    logical (reserve nc s) = logical s := by
  unfold reserve
  split
  · simp only [logical, ofRange]
    exact List.take_append_drop _ _
  · rfl

lemma inv_reserve {s : circular_vector α} (nc : Nat) (h : SpanInv s) :
    SpanInv (reserve nc s) := by
  obtain ⟨h1, h2, h3, h4⟩ := h
  unfold reserve
  split
  · refine inv_ofRange ?_
    rw [length_logical]
    omega
  · exact ⟨h1, h2, h3, h4⟩

lemma inv_extend_front {t : circular_vector α} (v : α) (h : SpanInv t)
    (hroom : size t + 1 ≤ t.capacity) :
    SpanInv { t with first_off := t.first_off - 1, first_elems := v :: t.first_elems } := by
  obtain ⟨h1, h2, h3, h4⟩ := h
  simp only [SpanInv, size, List.length_cons] at *
  omega

lemma inv_extend_back {t : circular_vector α} (v : α) (h : SpanInv t)
    (hroom : size t + 1 ≤ t.capacity) :
    SpanInv { t with second_elems := t.second_elems ++ [v] } := by
  obtain ⟨h1, h2, h3, h4⟩ := h
  simp only [SpanInv, size, List.length_append, List.length_cons, List.length_nil] at *
  omega

lemma inv_push_front {s : circular_vector α} (v : α) (h : SpanInv s) :
    SpanInv (push_front v s) :=
  inv_extend_front v (inv_reserve _ h)
    (by rw [size_reserve]; exact capacity_reserve_ge _ _)

lemma inv_push_back {s : circular_vector α} (v : α) (h : SpanInv s) :
    SpanInv (push_back v s) :=
  inv_extend_back v (inv_reserve _ h)
    (by rw [size_reserve]; exact capacity_reserve_ge _ _)

lemma inv_pop_front {s s' : circular_vector α} (h : SpanInv s)
    (he : pop_front s = some s') : SpanInv s' := by
  obtain ⟨cap, foff, fe, soff, se⟩ := s
  simp only [SpanInv, size] at h
  obtain ⟨h1, h2, h3, h4⟩ := h
  cases fe with
  | nil => exact absurd he (by simp [pop_front])
  | cons a rest =>
    simp only [pop_front, Option.some.injEq] at he
    subst he
    simp only [List.length_cons] at h1 h4
    refine ⟨?_, h2, ?_, ?_⟩ <;> simp only [size, List.length_cons] <;> omega

lemma inv_pop_back {s s' : circular_vector α} (h : SpanInv s)
    (he : pop_back s = some s') : SpanInv s' := by
  obtain ⟨cap, foff, fe, soff, se⟩ := s
  simp only [SpanInv, size] at h
  obtain ⟨h1, h2, h3, h4⟩ := h
  cases se with
  | nil => exact absurd he (by simp [pop_back])
  | cons a rest =>
    simp only [pop_back, Option.some.injEq] at he
    subst he
    simp only [List.length_cons] at h3 h4
    refine ⟨h1, h2, ?_, ?_⟩ <;>
      simp only [size, List.length_dropLast, List.length_cons] <;> omega

lemma reach_inv {s : circular_vector Nat} (h : Reach s) : SpanInv s := by
  induction h with
  | ofCap c => exact inv_ofCapacity c
  | ofRange c xs hlen => exact inv_ofRange hlen
  | pushF v _ ih => exact inv_push_front v ih
  | pushB v _ ih => exact inv_push_back v ih
  | popF _ he ih => exact inv_pop_front ih he
  | popB _ he ih => exact inv_pop_back ih he
  | resv nc _ ih => exact inv_reserve nc ih

lemma size_push_back (v : α) (s : circular_vector α) :
    size (push_back v s) = size s + 1 := by
  show size { reserve (size s + 1) s with
              second_elems := (reserve (size s + 1) s).second_elems ++ [v] } = size s + 1
  have := size_reserve (size s + 1) s
  simp only [size, List.length_append, List.length_cons, List.length_nil] at *
  omega

lemma logical_push_back (v : α) (s : circular_vector α) :
    logical (push_back v s) = logical s ++ [v] := by
  show logical { reserve (size s + 1) s with
                 second_elems := (reserve (size s + 1) s).second_elems ++ [v] }
       = logical s ++ [v]
  rw [← logical_reserve (size s + 1) s]
  simp [logical, List.append_assoc]

lemma capacity_push_back_full (v : α) {s : circular_vector α} (h : size s = s.capacity) :
    (push_back v s).capacity = s.capacity + 1 := by
  show (reserve (size s + 1) s).capacity = s.capacity + 1
  unfold reserve
  rw [if_pos (by omega)]
  simp [ofRange, h]

lemma foldl_push_back_spec (xs : List α) :
    ∀ s : circular_vector α, size s = s.capacity →
      (xs.foldl (fun a v => push_back v a) s).capacity = s.capacity + xs.length ∧
      size (xs.foldl (fun a v => push_back v a) s) = s.capacity + xs.length ∧
      logical (xs.foldl (fun a v => push_back v a) s) = logical s ++ xs := by
  induction xs with
  | nil => intro s h; simp [h]
  | cons v rest ih =>
    intro s h
    simp only [List.foldl_cons, List.length_cons]
    have hcap : (push_back v s).capacity = s.capacity + 1 := capacity_push_back_full v h
    have hsz : size (push_back v s) = s.capacity + 1 := by
      rw [size_push_back, h]
    obtain ⟨a, b, c⟩ := ih (push_back v s) (by rw [hsz, hcap])
    refine ⟨?_, ?_, ?_⟩
    · rw [a, hcap]; omega
    · rw [b, hcap]; omega
    · rw [c, logical_push_back]; simp

/-- C1 (code_bug evaluation): the operation sequence `push_back(1);
pop_front()` never pops while `size() == 0` (after the push, `size() = 1`),
and the reference double-ended queue executes it to the empty sequence; but
the container's `pop_front` destroys `first_span_.front()` on an empty
front run — the single logical element lives in the back run — which is
undefined behavior (`none`), so the logical sequence does not match the
reference. -/
theorem c1_pop_front_back_run_bug :
    Option.map size (runOps (ofCapacity 0) [Op.pushB 1]) = some 1 ∧
    runOps (ofCapacity 0) [Op.pushB 1, Op.popF] = none ∧
    dequeRun [] [Op.pushB 1, Op.popF] = some [] := by
  decide

/-- C2 (code_bug evaluation): starting from capacity 0, after `push_back(1);
push_front(0); push_back(2); pop_front()` the logical contents are `[1, 2]`,
`size()` is 2 and `back()` is 2 as claimed, but `front()` reads
`first_span_.front()` of an empty front run — undefined behavior (`none`)
instead of the claimed 1, which lives in the back run. -/
theorem c2_scenario1_front_bug :
    Option.map logical (pop_front (push_back 2 (push_front 0 (push_back 1 (ofCapacity 0)))))
      = some [1, 2] ∧
    Option.map size (pop_front (push_back 2 (push_front 0 (push_back 1 (ofCapacity 0)))))
      = some 2 ∧
    Option.map back (pop_front (push_back 2 (push_front 0 (push_back 1 (ofCapacity 0)))))
      = some (some 2) ∧
    Option.map front (pop_front (push_back 2 (push_front 0 (push_back 1 (ofCapacity 0)))))
      = some none := by
  decide

/-- C3 (code_bug evaluation): for the container built from `[1,2,3,4,5]`
with capacity 5 (front run `[1,2,3]` in slots 2..4, back run `[4,5]` in
slots 0..1), `end()` sits at slot 2, which is not the Back Run's start
boundary (slot 0); yet `operator--` — whose test `current_ =
second_span_begin_` assigns and then checks only that the storage is
non-null — jumps unconditionally to the Front Run's end boundary minus one,
slot 4, the element 3.  Five backward steps from `end()` therefore visit
`[3, 3, 3, 3, 3]`, not the reverse logical order `[5, 4, 3, 2, 1]`. -/
theorem c3_iterator_decrement_bug :
    (cvEnd (ofRange 5 [1, 2, 3, 4, 5] : circular_vector Nat)).current = 2 ∧
    (ofRange 5 [1, 2, 3, 4, 5] : circular_vector Nat).second_off = 0 ∧
    ((cvEnd (ofRange 5 [1, 2, 3, 4, 5] : circular_vector Nat)).dec true).current = 4 ∧
    getSlot (ofRange 5 [1, 2, 3, 4, 5] : circular_vector Nat) 4 = some 3 ∧
    bwd_collect (ofRange 5 [1, 2, 3, 4, 5]) true 5 (cvEnd (ofRange 5 [1, 2, 3, 4, 5]))
      = [3, 3, 3, 3, 3] ∧
    (logical (ofRange 5 [1, 2, 3, 4, 5] : circular_vector Nat)).reverse
      = [5, 4, 3, 2, 1] ∧
    bwd_collect (ofRange 5 [1, 2, 3, 4, 5]) true 5 (cvEnd (ofRange 5 [1, 2, 3, 4, 5]))
      ≠ (logical (ofRange 5 [1, 2, 3, 4, 5] : circular_vector Nat)).reverse := by
  decide

/-- C4 (code_bug evaluation): `begin()` is always the front span's begin.
For the empty container of capacity 3, `begin()` sits at slot 3 (the
store's end) while `end()` sits at slot 0, so `begin() != end()` although
the container is empty.  For the non-empty container reached by
`push_back(1)` from capacity 0 (front run empty, back run `[1]`),
`begin()` sits at slot 1, not at the Back Run's start (slot 0). -/
theorem c4_begin_bug :
    (cvBegin (ofCapacity 3 : circular_vector Nat)).current = 3 ∧
    (cvEnd (ofCapacity 3 : circular_vector Nat)).current = 0 ∧
    (cvBegin (ofCapacity 3 : circular_vector Nat)).current
      ≠ (cvEnd (ofCapacity 3 : circular_vector Nat)).current ∧
    size (push_back 1 (ofCapacity 0)) = 1 ∧
    (push_back 1 (ofCapacity 0)).first_elems = [] ∧
    (push_back 1 (ofCapacity 0)).second_off = 0 ∧
    (cvBegin (push_back 1 (ofCapacity 0))).current = 1 ∧
    (cvBegin (push_back 1 (ofCapacity 0))).current
      ≠ (push_back 1 (ofCapacity 0)).second_off := by
  decide

/-- C5 (counterexample): constructing from `[1,2,3,4,5]` with capacity 5
does put `{1,2,3}` in the Front Run and `{4,5}` in the Back Run, but the
two runs are then adjacent (zero slack), so `begin()` and `end()` occupy
the same slot and full forward iteration visits nothing — not
`1,2,3,4,5`. -/
theorem c5_full_capacity_iteration_cex :
    (ofRange 5 [1, 2, 3, 4, 5] : circular_vector Nat).first_elems = [1, 2, 3] ∧
    (ofRange 5 [1, 2, 3, 4, 5] : circular_vector Nat).second_elems = [4, 5] ∧
    (cvBegin (ofRange 5 [1, 2, 3, 4, 5] : circular_vector Nat)).current
      = (cvEnd (ofRange 5 [1, 2, 3, 4, 5] : circular_vector Nat)).current ∧
    fwd_collect (ofRange 5 [1, 2, 3, 4, 5])
        (size (ofRange 5 [1, 2, 3, 4, 5] : circular_vector Nat))
        (cvBegin (ofRange 5 [1, 2, 3, 4, 5])) = [] ∧
    fwd_collect (ofRange 5 [1, 2, 3, 4, 5])
        (size (ofRange 5 [1, 2, 3, 4, 5] : circular_vector Nat))
        (cvBegin (ofRange 5 [1, 2, 3, 4, 5])) ≠ [1, 2, 3, 4, 5] := by
  decide

/-- C5 (amended): for every ordered range, construction places the first
`ceil(N/2) = (N+1)/2` elements, in original order, into the Front Run and
the remaining `floor(N/2)` into the Back Run; and when the capacity
strictly exceeds N — here 6 for `[1,2,3,4,5]` — the Front Run is `[1,2,3]`,
the Back Run is `[4,5]`, and full forward iteration from `begin()` yields
`1,2,3,4,5`.  (At capacity exactly N the runs are adjacent, `begin()` and
`end()` coincide, and iteration is empty.) -/
theorem c5_range_split_amended :
    (∀ (β : Type) (xs : List β) (cap : Nat),
        (ofRange cap xs).first_elems = xs.take ((xs.length + 1) / 2) ∧
        (ofRange cap xs).second_elems = xs.drop ((xs.length + 1) / 2)) ∧
    (ofRange 6 [1, 2, 3, 4, 5] : circular_vector Nat).first_elems = [1, 2, 3] ∧
    (ofRange 6 [1, 2, 3, 4, 5] : circular_vector Nat).second_elems = [4, 5] ∧
    fwd_collect (ofRange 6 [1, 2, 3, 4, 5])
        (size (ofRange 6 [1, 2, 3, 4, 5] : circular_vector Nat))
        (cvBegin (ofRange 6 [1, 2, 3, 4, 5])) = [1, 2, 3, 4, 5] :=
  ⟨fun β xs cap => ⟨rfl, rfl⟩, by decide⟩

/-- C6: in every state reachable through the public operations (the
capacity constructor, the range constructor with sufficient capacity, the
four mutators on their defined domains, and `reserve`), the front run
length plus the back run length equals `size()`, `size()` is at most
`capacity()`, the Front Run's right edge is pinned to the store's end, the
Back Run's left edge is pinned to the store's start, and the Back Run's
end never exceeds the Front Run's start. -/
theorem c6_reachable_invariants (s : circular_vector Nat) (h : Reach s) :
    s.first_elems.length + s.second_elems.length = size s ∧
    size s ≤ s.capacity ∧
    s.first_off + s.first_elems.length = s.capacity ∧
    s.second_off = 0 ∧
    s.second_off + s.second_elems.length ≤ s.first_off := by
  obtain ⟨h1, h2, h3, h4⟩ := reach_inv h
  exact ⟨rfl, h4, h1, h2, h3⟩

/-- Witness for C6 at the state reached by `push_back(1)` from a
capacity-0 container. -/
theorem c6_reachable_invariants_witness :
    (push_back 1 (ofCapacity 0 : circular_vector Nat)).first_elems.length +
        (push_back 1 (ofCapacity 0 : circular_vector Nat)).second_elems.length =
      size (push_back 1 (ofCapacity 0 : circular_vector Nat)) ∧
    size (push_back 1 (ofCapacity 0 : circular_vector Nat)) ≤
      (push_back 1 (ofCapacity 0 : circular_vector Nat)).capacity ∧
    (push_back 1 (ofCapacity 0 : circular_vector Nat)).first_off +
        (push_back 1 (ofCapacity 0 : circular_vector Nat)).first_elems.length =
      (push_back 1 (ofCapacity 0 : circular_vector Nat)).capacity ∧
    (push_back 1 (ofCapacity 0 : circular_vector Nat)).second_off = 0 ∧
    (push_back 1 (ofCapacity 0 : circular_vector Nat)).second_off +
        (push_back 1 (ofCapacity 0 : circular_vector Nat)).second_elems.length ≤
      (push_back 1 (ofCapacity 0 : circular_vector Nat)).first_off :=
  c6_reachable_invariants _ (Reach.pushB 1 (Reach.ofCap 0))

/-- C7: growth is all-or-nothing.  `reserve` first fully constructs the new
container (`new_self`) and only then swaps it in; if an element copy fails
partway through, the failure propagates and the container the caller holds
is exactly the one from before the call — same state, hence same size,
capacity, and logical contents.  (Destruction of the partially constructed
elements and release of the new store are raw-memory effects with no
observable counterpart in this embedding.) -/
theorem c7_growth_strong_exception_safety {ε : Type} (copy : α → Except ε α)
    (nc : Nat) (s : circular_vector α) (e : ε)
    (h : (reserveTry copy nc s).1 = Except.error e) :
    (reserveTry copy nc s).2 = s ∧
    size (reserveTry copy nc s).2 = size s ∧
    (reserveTry copy nc s).2.capacity = s.capacity ∧
    logical (reserveTry copy nc s).2 = logical s := by
  by_cases hlt : s.capacity < nc
  · cases hm : ofRangeTry copy nc (logical s) with
    | ok t =>
      rw [reserveTry, if_pos hlt, hm] at h
      exact absurd h (by simp)
    | error e2 =>
      have hv : reserveTry copy nc s = (Except.error e2, s) := by
        rw [reserveTry, if_pos hlt, hm]
      rw [hv]
      exact ⟨rfl, rfl, rfl, rfl⟩
  · rw [reserveTry, if_neg hlt] at h
    exact absurd h (by simp)

/-- Witness for C7: a copy that always fails, on growth of a two-element
container from capacity 2 to 3. -/
theorem c7_growth_strong_exception_safety_witness :
    (reserveTry (fun _ => Except.error 0) 3 (ofRange 2 [1, 2] : circular_vector Nat)).1
      = Except.error 0 ∧
    ((reserveTry (fun _ => Except.error 0) 3 (ofRange 2 [1, 2] : circular_vector Nat)).2
        = ofRange 2 [1, 2] ∧
      size (reserveTry (fun _ => Except.error 0) 3 (ofRange 2 [1, 2] : circular_vector Nat)).2
        = size (ofRange 2 [1, 2] : circular_vector Nat) ∧
      (reserveTry (fun _ => Except.error 0) 3 (ofRange 2 [1, 2] : circular_vector Nat)).2.capacity
        = (ofRange 2 [1, 2] : circular_vector Nat).capacity ∧
      logical (reserveTry (fun _ => Except.error 0) 3 (ofRange 2 [1, 2] : circular_vector Nat)).2
        = logical (ofRange 2 [1, 2] : circular_vector Nat)) :=
  ⟨rfl, c7_growth_strong_exception_safety _ 3 _ 0 rfl⟩

/-- C8 (counterexample): for N = 1 and capacity 1, direct construction from
`[1]` puts the element in the Front Run, while `push_back(1)` from the
default container followed by `reserve(1)` — a no-op, since the capacity is
already 1 — leaves it in the Back Run: the layouts differ. -/
theorem c8_layout_equivalence_cex :
    (ofRange 1 [1] : circular_vector Nat).first_elems = [1] ∧
    (ofRange 1 [1] : circular_vector Nat).second_elems = [] ∧
    (pushBackAll [1] : circular_vector Nat).capacity = 1 ∧
    (reserve 1 (pushBackAll [1] : circular_vector Nat)).first_elems = [] ∧
    (reserve 1 (pushBackAll [1] : circular_vector Nat)).second_elems = [1] ∧
    (reserve 1 (pushBackAll [1] : circular_vector Nat)).first_elems
      ≠ (ofRange 1 [1] : circular_vector Nat).first_elems := by
  decide

/-- C8 (amended): for every element sequence of length N and every capacity
C strictly greater than N — so that the trailing `reserve` actually
triggers growth — the container built by N sequential `push_back` calls
followed by `reserve(C)` is identical (same front run, back run, and
capacity) to the one built directly from the N elements with capacity C. -/
theorem c8_layout_equivalence_amended {β : Type} (xs : List β) (C : Nat)
    (h : xs.length < C) :
    reserve C (pushBackAll xs) = ofRange C xs := by
  obtain ⟨a, b, c⟩ := foldl_push_back_spec xs (ofCapacity 0) (by simp [size, ofCapacity])
  unfold pushBackAll
  unfold reserve
  rw [if_pos (by rw [a]; simpa [ofCapacity] using h)]
  rw [c]
  simp [logical, ofCapacity]

/-- Witness for C8 (amended) at `[1, 2]` with capacity 5. -/
theorem c8_layout_equivalence_amended_witness :
    List.length [1, 2] < 5 ∧
    reserve 5 (pushBackAll [1, 2] : circular_vector Nat) = ofRange 5 [1, 2] :=
  ⟨by decide, c8_layout_equivalence_amended [1, 2] 5 (by decide)⟩

/-- C9 (code_bug evaluation): the defaulted move constructor moves
`storage_` (emptying the source's vector, so its `capacity()` becomes 0)
but copies the two trivially-copyable `std::span` members.  The destination
does hold the former logical sequence `[1]` with the former capacity 1, but
the source's spans keep their sizes, so its `size()` stays 1 instead of
becoming 0. -/
theorem c9_move_source_not_emptied :
    (move_construct (push_back 1 (ofCapacity 0 : circular_vector Nat))).1
      = push_back 1 (ofCapacity 0) ∧
    logical (move_construct (push_back 1 (ofCapacity 0 : circular_vector Nat))).1 = [1] ∧
    (move_construct (push_back 1 (ofCapacity 0 : circular_vector Nat))).1.capacity = 1 ∧
    (move_construct (push_back 1 (ofCapacity 0 : circular_vector Nat))).2.capacity = 0 ∧
    size (move_construct (push_back 1 (ofCapacity 0 : circular_vector Nat))).2 = 1 ∧
    size (move_construct (push_back 1 (ofCapacity 0 : circular_vector Nat))).2 ≠ 0 := by
  decide

/-- C10: for every container and every `new_capacity` strictly greater
than `capacity()`, `reserve(new_capacity)` allocates exactly
`new_capacity` slots — the new store is `storage_(new_capacity)`, no
doubling or over-allocation — while preserving `size()` and the logical
contents. -/
theorem c10_reserve_exact_capacity (s : circular_vector α) (nc : Nat)
    (h : s.capacity < nc) :
    (reserve nc s).capacity = nc ∧
    size (reserve nc s) = size s ∧
    logical (reserve nc s) = logical s := by
  refine ⟨?_, size_reserve nc s, logical_reserve nc s⟩
  unfold reserve
  rw [if_pos h]
  rfl

/-- Witness for C10 at a two-element container of capacity 2 grown to 5. -/
theorem c10_reserve_exact_capacity_witness :
    (ofRange 2 [1, 2] : circular_vector Nat).capacity < 5 ∧
    ((reserve 5 (ofRange 2 [1, 2] : circular_vector Nat)).capacity = 5 ∧
      size (reserve 5 (ofRange 2 [1, 2] : circular_vector Nat))
        = size (ofRange 2 [1, 2] : circular_vector Nat) ∧
      logical (reserve 5 (ofRange 2 [1, 2] : circular_vector Nat))
        = logical (ofRange 2 [1, 2] : circular_vector Nat)) :=
  ⟨by decide, c10_reserve_exact_capacity _ 5 (by decide)⟩

end circular_vector
